import Mathlib

/-!
# Verification of `pymc_experimental/distributions/continuous.py`

A shallow embedding of the distribution library's evaluation core.
Scalar (elementwise) semantics over `ℝ`; the `-∞` value produced by
support violations is modelled with `EReal`; the domain-violation
signalling of the constraint checker is modelled with `Except String`.
External collaborators (the pytensor graph engine, scipy variate
generators, pymc's `CustomDist`/`ChiSquared`) are modelled at their
interface, as the spec prescribes: variate generators are explicit
function arguments, and special functions (`gammaln`, `gammainc`,
`sign`, `isclose`) are given their documented mathematical meaning.
-/

open Classical

/-- Modelled from the spec (§4.1 Constraint Checker) and the call sites:
pymc's `check_parameters(result, cond1, cond2, msg=...)` is not under
`src/`.  It yields the result unchanged when every predicate holds and
otherwise flags a domain violation carrying the descriptive message. -/
noncomputable def check_parameters {α : Type} (result : α) (cond1 cond2 : Prop)
    (msg : String) : Except String α :=
  if cond1 ∧ cond2 then Except.ok result else Except.error msg

/-- Modelled from the spec (§4.1): pymc's `CheckParameterValue(msg)(expr, cond)`
is not under `src/`; it yields `expr` unchanged when the predicate holds,
otherwise flags a domain violation with the message. -/
noncomputable def CheckParameterValue {α : Type} (msg : String) (expr : α)
    (cond : Prop) : Except String α :=
  if cond then Except.ok expr else Except.error msg

/-- Modelled from the spec (§4.2, "use a fixed tolerance for close to zero"):
`pt.isclose(a, b)` with its default tolerances `rtol = 1e-5`, `atol = 1e-8`,
i.e. `|a - b| ≤ atol + rtol * |b|`. -/
def isclose (a b : ℝ) : Prop := |a - b| ≤ 1e-8 + 1e-5 * |b|

/-- `pt.log1p(x)` is `log (1 + x)`. -/
noncomputable def log1p (x : ℝ) : ℝ := Real.log (1 + x)

/-- Against zero, `isclose` is the fixed absolute tolerance `1e-8`. -/
theorem isclose_zero (x : ℝ) : isclose x 0 ↔ |x| ≤ 1e-8 := by
  simp [isclose]

/-- `GenExtreme.logp` (continuous.py lines 156-185): standardize
`scaled = (value - mu) / sigma`, select the Gumbel-limit branch when
`isclose(xi, 0)`, apply the support switch `1 + xi * scaled > 0`
unconditionally, and wrap the result in `check_parameters`. -/
noncomputable def GenExtreme.logp (value mu sigma xi : ℝ) : Except String EReal :=
  let scaled := (value - mu) / sigma
  let logp_expression : EReal :=
    if isclose xi 0 then
      ((-Real.log sigma - scaled - Real.exp (-scaled) : ℝ) : EReal)
    else
      ((-Real.log sigma - ((xi + 1) / xi) * log1p (xi * scaled)
          - (1 + xi * scaled) ^ (-1 / xi) : ℝ) : EReal)
  let logp : EReal := if 0 < 1 + xi * scaled then logp_expression else ⊥
  check_parameters logp (0 < sigma) (-1 < xi ∧ xi < 1) "sigma > 0 or -1 < xi < 1"

/-- `GenExtreme.logcdf` (continuous.py lines 187-212): same branch
structure; the support switch recomputes `1 + xi * (value - mu) / sigma`. -/
noncomputable def GenExtreme.logcdf (value mu sigma xi : ℝ) : Except String EReal :=
  let scaled := (value - mu) / sigma
  let logc_expression : EReal :=
    if isclose xi 0 then ((-Real.exp (-scaled) : ℝ) : EReal)
    else ((-((1 + xi * scaled) ^ (-1 / xi)) : ℝ) : EReal)
  let logc : EReal := if 0 < 1 + xi * (value - mu) / sigma then logc_expression else ⊥
  check_parameters logc (0 < sigma) (-1 < xi ∧ xi < 1) "sigma > 0 or -1 < xi < 1"

/-- The spec's fixed tolerance for the `ξ ≈ 0` branch; the source realizes
it through `pt.isclose` whose default absolute tolerance is `1e-8`. -/
noncomputable def gevTol : ℝ := 1e-8

/-- GEV log-density, written from the spec's words (§4.2): with
`z = (x - μ)/σ`, outside the support (`1 + ξz ≤ 0`) the density is `-∞`
regardless of branch; `ξ` within the fixed tolerance of `0` gives the
Gumbel limit `-log σ - z - e^(-z)`; otherwise
`-log σ - ((ξ+1)/ξ)·log1p(ξz) - (1+ξz)^(-1/ξ)`. -/
noncomputable def gevLogpSpec (x mu sigma xi : ℝ) : EReal :=
  let z := (x - mu) / sigma
  if 1 + xi * z ≤ 0 then ⊥
  else if |xi| ≤ gevTol then
    ((-Real.log sigma - z - Real.exp (-z) : ℝ) : EReal)
  else
    ((-Real.log sigma - ((xi + 1) / xi) * Real.log (1 + xi * z)
        - (1 + xi * z) ^ (-1 / xi) : ℝ) : EReal)

/-- GEV log-CDF, written from the spec's words (§4.2): `-e^(-z)` in the
`ξ ≈ 0` limit, else `-(1+ξz)^(-1/ξ)`; where `1 + ξz ≤ 0` it is `-∞`. -/
noncomputable def gevLogcdfSpec (x mu sigma xi : ℝ) : EReal :=
  let z := (x - mu) / sigma
  if 1 + xi * z ≤ 0 then ⊥
  else if |xi| ≤ gevTol then ((-Real.exp (-z) : ℝ) : EReal)
  else ((-((1 + xi * z) ^ (-1 / xi)) : ℝ) : EReal)

/-- C2: for parameters in their domain (σ > 0, ξ ∈ (-1,1)), GEV log-density
equals the spec formula: the Gumbel limit when ξ is within the fixed
tolerance of 0, the closed form otherwise, and `-∞` whenever
`1 + ξ(x-μ)/σ ≤ 0` regardless of branch (the support check is applied
unconditionally). -/
theorem gev_logp_matches_spec (value mu sigma xi : ℝ) (hs : 0 < sigma)
    (hx1 : -1 < xi) (hx2 : xi < 1) :
    GenExtreme.logp value mu sigma xi = Except.ok (gevLogpSpec value mu sigma xi) := by
  rw [GenExtreme.logp, gevLogpSpec, check_parameters]
  unfold gevTol
  rw [if_pos ⟨hs, hx1, hx2⟩]
  congr 1
  by_cases hsup : (0:ℝ) < 1 + xi * ((value - mu) / sigma)
  · rw [if_pos hsup, if_neg (not_le.mpr hsup)]
    by_cases hc : isclose xi 0
    · rw [if_pos hc, if_pos ((isclose_zero xi).mp hc)]
    · rw [if_neg hc, if_neg (fun h => hc ((isclose_zero xi).mpr h))]
      rw [log1p]
  · rw [if_neg hsup, if_pos (not_lt.mp hsup)]

/-- Witness for C2 at `value = 0, μ = 0, σ = 1, ξ = 0`. -/
theorem gev_logp_matches_spec_witness :
    GenExtreme.logp 0 0 1 0 = Except.ok (gevLogpSpec 0 0 1 0) :=
  gev_logp_matches_spec 0 0 1 0 one_pos neg_one_lt_zero one_pos

/-- C3: for parameters in their domain (σ > 0, ξ ∈ (-1,1)), GEV log-CDF
equals the spec formula: `-e^(-z)` when ξ is within the fixed tolerance of
0, `-(1+ξz)^(-1/ξ)` otherwise, and `-∞` wherever `1 + ξ(x-μ)/σ ≤ 0`. -/
theorem gev_logcdf_matches_spec (value mu sigma xi : ℝ) (hs : 0 < sigma)
    (hx1 : -1 < xi) (hx2 : xi < 1) :
    GenExtreme.logcdf value mu sigma xi = Except.ok (gevLogcdfSpec value mu sigma xi) := by
  rw [GenExtreme.logcdf, gevLogcdfSpec, check_parameters]
  unfold gevTol
  rw [if_pos ⟨hs, hx1, hx2⟩]
  rw [show xi * (value - mu) / sigma = xi * ((value - mu) / sigma) from mul_div_assoc xi _ _]
  congr 1
  by_cases hsup : (0:ℝ) < 1 + xi * ((value - mu) / sigma)
  · rw [if_pos hsup, if_neg (not_le.mpr hsup)]
    by_cases hc : isclose xi 0
    · rw [if_pos hc, if_pos ((isclose_zero xi).mp hc)]
    · rw [if_neg hc, if_neg (fun h => hc ((isclose_zero xi).mpr h))]
  · rw [if_neg hsup, if_pos (not_lt.mp hsup)]

/-- Witness for C3 at `value = 0, μ = 0, σ = 1, ξ = 0`. -/
theorem gev_logcdf_matches_spec_witness :
    GenExtreme.logcdf 0 0 1 0 = Except.ok (gevLogcdfSpec 0 0 1 0) :=
  gev_logcdf_matches_spec 0 0 1 0 one_pos neg_one_lt_zero one_pos

/-- C7: a GEV logp evaluation with σ = -1 (outside its declared domain
σ > 0) flags a domain violation instead of yielding a number, and the
violation carries the message "sigma > 0 or -1 < xi < 1". -/
theorem gev_logp_sigma_neg_one_error (value mu xi : ℝ) :
    GenExtreme.logp value mu (-1) xi = Except.error "sigma > 0 or -1 < xi < 1" := by
  rw [GenExtreme.logp, check_parameters]
  rw [if_neg]
  rintro ⟨h, -⟩
  exact absurd h (by norm_num)

/-- C10: for ξ < 0, at every point strictly above the upper support
endpoint `μ - σ/ξ` (where the mathematical CDF is 1 and the log-CDF would
be 0), `GenExtreme.logcdf` returns `-∞`, because its support switch
`1 + ξ(x-μ)/σ > 0` fails on both sides of the support. -/
theorem gev_logcdf_above_support (value mu sigma xi : ℝ) (hs : 0 < sigma)
    (hx1 : -1 < xi) (hxneg : xi < 0) (hval : mu - sigma / xi < value) :
    GenExtreme.logcdf value mu sigma xi = Except.ok (⊥ : EReal) := by
  have hxne : xi ≠ 0 := ne_of_lt hxneg
  have h1 : -(sigma / xi) < value - mu := by linarith
  have h2 : xi * (value - mu) < xi * (-(sigma / xi)) :=
    mul_lt_mul_of_neg_left h1 hxneg
  have h3 : xi * (-(sigma / xi)) = -sigma := by
    field_simp
    exact mul_comm xi sigma
  have h4 : xi * (value - mu) < -sigma := h3 ▸ h2
  have h5 : xi * (value - mu) / sigma < -sigma / sigma :=
    (div_lt_div_iff_of_pos_right hs).mpr h4
  have h6 : -sigma / sigma = -1 := by
    rw [neg_div, div_self (ne_of_gt hs)]
  have hsup : ¬ (0:ℝ) < 1 + xi * (value - mu) / sigma := by
    rw [h6] at h5; linarith
  rw [GenExtreme.logcdf, check_parameters]
  rw [if_pos ⟨hs, hx1, lt_trans hxneg one_pos⟩]
  rw [if_neg hsup]

/-- Witness for C10 at `value = 3, μ = 0, σ = 1, ξ = -1/2`
(upper endpoint `μ - σ/ξ = 2 < 3`). -/
theorem gev_logcdf_above_support_witness :
    GenExtreme.logcdf 3 0 1 (-(1/2)) = Except.ok (⊥ : EReal) :=
  gev_logcdf_above_support 3 0 1 (-(1/2)) one_pos (by norm_num) (by norm_num)
    (by norm_num)

/-- Modelled from the spec (§4.3): `pt.gammainc(s, x)` — not under `src/` —
is the regularized (normalized) lower incomplete gamma function
`P(s, x) = γ(s, x) / Γ(s)`. -/
noncomputable def gammainc (s x : ℝ) : ℝ :=
  (∫ t in (0:ℝ)..x, t ^ (s - 1) * Real.exp (-t)) / Real.Gamma s

/-- Modelled from the spec (§4.3): `pt.gammaln(x)` — not under `src/` —
is the log-Gamma function `logΓ(x)`. -/
noncomputable def gammaln (x : ℝ) : ℝ := Real.log (Real.Gamma x)

/-- `GeneralizedNormal.logp` (continuous.py lines 478-488):
`log(0.5 β) - log α - gammaln(1/β) - |z|^β` with `z = (value - μ)/α`,
wrapped in `check_parameters`. -/
noncomputable def GeneralizedNormal.logp (value mu alpha beta : ℝ) :
    Except String ℝ :=
  let z := (value - mu) / alpha
  let lp := Real.log (0.5 * beta) - Real.log alpha - gammaln (1.0 / beta)
      - |z| ^ beta
  check_parameters lp (0 < alpha) (0 < beta) "alpha > 0, beta > 0"

/-- `GeneralizedNormal.logcdf` (continuous.py lines 491-517): the CDF
`0.5 + 0.5 · sign(value-μ) · gammainc(1/β, z^β)` with `z = |(value-μ)/α|`,
and the log is taken of that computed CDF.  The source applies no
`check_parameters` here, so the result is unconditionally `Except.ok`
(the `Except` return type only keeps the evaluation interface uniform). -/
noncomputable def GeneralizedNormal.logcdf (value mu alpha beta : ℝ) :
    Except String ℝ :=
  let z := |(value - mu) / alpha|
  let cdf := 0.5 + 0.5 * Real.sign (value - mu) * gammainc (1.0 / beta) (z ^ beta)
  Except.ok (Real.log cdf)

/-- Generalized Normal log-density, written from the spec's words (§4.3):
`log(β/(2α)) - logΓ(1/β) - |z|^β` with `z = (x-μ)/α`. -/
noncomputable def gennormLogpSpec (x mu alpha beta : ℝ) : ℝ :=
  Real.log (beta / (2 * alpha)) - Real.log (Real.Gamma (1 / beta))
    - |(x - mu) / alpha| ^ beta

/-- Generalized Normal log-CDF, written from the spec's words (§4.3):
the log of `CDF = 1/2 + (1/2)·sign(x-μ)·P(1/β, z^β)` with `z = |x-μ|/α`. -/
noncomputable def gennormLogcdfSpec (x mu alpha beta : ℝ) : ℝ :=
  Real.log (1/2 + 1/2 * Real.sign (x - mu)
    * gammainc (1 / beta) ((|x - mu| / alpha) ^ beta))

/-- C4: for every value and parameters with α > 0 and β > 0 (all β > 0,
not only special values), the Generalized Normal log-density equals
`log(β/(2α)) - logΓ(1/β) - |z|^β`. -/
theorem gennorm_logp_matches_spec (value mu alpha beta : ℝ)
    (ha : 0 < alpha) (hb : 0 < beta) :
    GeneralizedNormal.logp value mu alpha beta
      = Except.ok (gennormLogpSpec value mu alpha beta) := by
  rw [GeneralizedNormal.logp, gennormLogpSpec, check_parameters, gammaln]
  rw [if_pos ⟨ha, hb⟩]
  congr 1
  have h1 : Real.log (0.5 * beta) = Real.log 0.5 + Real.log beta :=
    Real.log_mul (by norm_num) (ne_of_gt hb)
  have h2 : Real.log (beta / (2 * alpha))
      = Real.log beta - (Real.log 2 + Real.log alpha) := by
    rw [Real.log_div (ne_of_gt hb) (by positivity),
      Real.log_mul two_ne_zero (ne_of_gt ha)]
  have h3 : Real.log 0.5 = -Real.log 2 := by
    rw [show (0.5:ℝ) = 2⁻¹ by norm_num, Real.log_inv]
  rw [h1, h2, h3]
  norm_num
  ring

/-- Witness for C4 at `value = 0, μ = 0, α = 1, β = 1`. -/
theorem gennorm_logp_matches_spec_witness :
    GeneralizedNormal.logp 0 0 1 1 = Except.ok (gennormLogpSpec 0 0 1 1) :=
  gennorm_logp_matches_spec 0 0 1 1 one_pos one_pos

/-- C5: for every value and parameters with α > 0 and β > 0, the
Generalized Normal log-CDF equals
`log(0.5 + 0.5·sign(x-μ)·P(1/β, (|x-μ|/α)^β))` — the logarithm of the
already-computed CDF value. -/
theorem gennorm_logcdf_matches_spec (value mu alpha beta : ℝ)
    (ha : 0 < alpha) (hb : 0 < beta) :
    GeneralizedNormal.logcdf value mu alpha beta
      = Except.ok (gennormLogcdfSpec value mu alpha beta) := by
  rw [GeneralizedNormal.logcdf, gennormLogcdfSpec]
  rw [abs_div, abs_of_pos ha]
  norm_num

/-- Witness for C5 at `value = 1, μ = 0, α = 1, β = 2`. -/
theorem gennorm_logcdf_matches_spec_witness :
    GeneralizedNormal.logcdf 1 0 1 2 = Except.ok (gennormLogcdfSpec 1 0 1 2) :=
  gennorm_logcdf_matches_spec 1 0 1 2 one_pos two_pos

/-- `GenExtremeRV.rng_fn` (continuous.py lines 48-58): the scipy
generalized-extreme-value variate generator — an external collaborator
modelled as an explicit function argument `rvs (c, loc, scale, rng, size)` —
is called with `c = -xi`, `loc = mu`, `scale = sigma`, the given random
source and size. -/
def GenExtremeRV.rng_fn {R D : Type} (rvs : ℝ → ℝ → ℝ → R → List Nat → D)
    (rng : R) (mu sigma xi : ℝ) (size : List Nat) : D :=
  rvs (-xi) mu sigma rng size

/-- `GeneralizedNormalRV.rng_fn` (continuous.py lines 366-375): the scipy
generalized-normal variate generator `rvs (beta, loc, scale, rng, size)` is
called with the parameters passed through unchanged. -/
def GeneralizedNormalRV.rng_fn {R D : Type} (rvs : ℝ → ℝ → ℝ → R → List Nat → D)
    (rng : R) (loc alpha beta : ℝ) (size : List Nat) : D :=
  rvs beta loc alpha rng size

/-- `Chi.chi_dist` (continuous.py lines 272-274): the square root of a
ChiSquared(ν) variate of the requested size.  The ChiSquared generator is
an external collaborator modelled as the function argument
`chisq_rvs (nu, size, rng)` returning the drawn array. -/
noncomputable def Chi.chi_dist {R : Type} (chisq_rvs : ℝ → Nat → R → List ℝ)
    (nu : ℝ) (size : Nat) (rng : R) : List ℝ :=
  (chisq_rvs nu size rng).map Real.sqrt

/-- `Maxwell.maxwell_dist` (continuous.py lines 328-335): when no explicit
size is given the size is taken from `a`'s own shape; `a` is passed through
`CheckParameterValue "a > 0"` with the predicate that all its elements are
positive; the result is a Chi(ν = 3) variate of the resolved size multiplied
elementwise by `a`. -/
noncomputable def Maxwell.maxwell_dist {R : Type} (chisq_rvs : ℝ → Nat → R → List ℝ)
    (a : List ℝ) (size : Option Nat) (rng : R) : Except String (List ℝ) :=
  let n := match size with
    | none => a.length
    | some m => m
  (CheckParameterValue "a > 0" a (∀ x ∈ a, 0 < x)).map
    (fun a2 => List.zipWith (fun c y => c * y) (Chi.chi_dist chisq_rvs 3 n rng) a2)

/-- C6: GEV sampling delegates to the underlying generalized-extreme-value
generator with the shape parameter negated (`c = -ξ`) and μ, σ, the random
source and the size passed through unchanged. -/
theorem gev_rng_fn_delegates {R D : Type} (rvs : ℝ → ℝ → ℝ → R → List Nat → D)
    (rng : R) (mu sigma xi : ℝ) (size : List Nat) :
    GenExtremeRV.rng_fn rvs rng mu sigma xi size = rvs (-xi) mu sigma rng size :=
  rfl

/-- C8: Maxwell sampling is scale-times-Chi: with no explicit sample shape
the shape is inferred from `a`, the constraint `a > 0` is enforced through
the constraint checker before scaling, and when it holds the draw is the
Chi(ν = 3) variate (the square root of a ChiSquared(3) draw) of `a`'s
shape multiplied elementwise by `a`; when it fails the evaluation flags
the violation "a > 0". -/
theorem maxwell_sampling {R : Type} (chisq_rvs : ℝ → Nat → R → List ℝ)
    (a : List ℝ) (rng : R) :
    ((∀ x ∈ a, 0 < x) →
      Maxwell.maxwell_dist chisq_rvs a none rng
        = Except.ok (List.zipWith (fun c y => c * y)
            ((chisq_rvs 3 a.length rng).map Real.sqrt) a))
    ∧ (¬ (∀ x ∈ a, 0 < x) →
      Maxwell.maxwell_dist chisq_rvs a none rng = Except.error "a > 0") := by
  constructor
  · intro ha
    rw [Maxwell.maxwell_dist, CheckParameterValue, if_pos ha]
    rfl
  · intro ha
    rw [Maxwell.maxwell_dist, CheckParameterValue, if_neg ha]
    rfl

/-- Witness for C8 at `a = [2]`, a constant ChiSquared generator and a
trivial random source. -/
theorem maxwell_sampling_witness :
    Maxwell.maxwell_dist (fun _ n _ => List.replicate n 1) [2] none ()
      = Except.ok (List.zipWith (fun c y => c * y)
          ((List.replicate 1 (1:ℝ)).map Real.sqrt) [2]) :=
  (maxwell_sampling (fun _ n _ => List.replicate n 1) [2] ()).1
    (by
      intro x hx
      rw [List.mem_singleton] at hx
      rw [hx]
      exact two_pos)

/-- C9: sampling is a pure function of (parameters, shape, random source):
two calls of a variant's sampler with componentwise-identical arguments
produce identical draws, for GEV, Generalized Normal and Maxwell alike. -/
theorem sampling_deterministic {R D : Type}
    (gev_rvs gn_rvs : ℝ → ℝ → ℝ → R → List Nat → D)
    (chisq_rvs : ℝ → Nat → R → List ℝ)
    (rng rng2 : R) (mu mu2 sigma sigma2 xi xi2 : ℝ) (size size2 : List Nat)
    (a a2 : List ℝ) (msize msize2 : Option Nat)
    (hr : rng = rng2) (hm : mu = mu2) (hs : sigma = sigma2) (hx : xi = xi2)
    (hsz : size = size2) (ham : a = a2) (hms : msize = msize2) :
    GenExtremeRV.rng_fn gev_rvs rng mu sigma xi size
        = GenExtremeRV.rng_fn gev_rvs rng2 mu2 sigma2 xi2 size2
    ∧ GeneralizedNormalRV.rng_fn gn_rvs rng mu sigma xi size
        = GeneralizedNormalRV.rng_fn gn_rvs rng2 mu2 sigma2 xi2 size2
    ∧ Maxwell.maxwell_dist chisq_rvs a msize rng
        = Maxwell.maxwell_dist chisq_rvs a2 msize2 rng2 := by
  subst hr hm hs hx hsz ham hms
  exact ⟨rfl, rfl, rfl⟩

/-- Witness for C9 with concrete identical argument tuples. -/
theorem sampling_deterministic_witness :
    GenExtremeRV.rng_fn (fun _ _ _ _ _ => (0:ℝ)) () 0 1 0 [1]
        = GenExtremeRV.rng_fn (fun _ _ _ _ _ => (0:ℝ)) () 0 1 0 [1]
    ∧ GeneralizedNormalRV.rng_fn (fun _ _ _ _ _ => (0:ℝ)) () 0 1 0 [1]
        = GeneralizedNormalRV.rng_fn (fun _ _ _ _ _ => (0:ℝ)) () 0 1 0 [1]
    ∧ Maxwell.maxwell_dist (fun _ n _ => List.replicate n 1) [1] none ()
        = Maxwell.maxwell_dist (fun _ n _ => List.replicate n 1) [1] none () :=
  sampling_deterministic (fun _ _ _ _ _ => (0:ℝ)) (fun _ _ _ _ _ => (0:ℝ))
    (fun _ n _ => List.replicate n 1) () () 0 0 1 1 0 0 [1] [1] [1] [1] none none
    rfl rfl rfl rfl rfl rfl rfl

/-- C1 counterexample: a `GeneralizedNormal.logcdf` evaluation at α = -1 —
a parameter outside its declared domain α > 0 — is not flagged: the
evaluation succeeds, because the source returns `log(cdf)` without passing
it through any parameter check.  This refutes the claim that every
log-density and log-CDF evaluation wraps its result in a parameter check. -/
theorem gennorm_logcdf_unchecked_cex :
    (GeneralizedNormal.logcdf 0 0 (-1) 1).isOk = true := rfl

/-- C1 (amended): `GenExtreme.logp`, `GenExtreme.logcdf` and
`GeneralizedNormal.logp` wrap their result in a parameter check — on any
violation of their parameter constraints the evaluation flags the domain
error instead of yielding a result — while `GeneralizedNormal.logcdf`
applies no parameter check at all: every evaluation succeeds. -/
theorem parameter_check_coverage :
    (∀ value mu sigma xi : ℝ, ¬(0 < sigma ∧ (-1 < xi ∧ xi < 1)) →
      GenExtreme.logp value mu sigma xi
        = Except.error "sigma > 0 or -1 < xi < 1")
    ∧ (∀ value mu sigma xi : ℝ, ¬(0 < sigma ∧ (-1 < xi ∧ xi < 1)) →
      GenExtreme.logcdf value mu sigma xi
        = Except.error "sigma > 0 or -1 < xi < 1")
    ∧ (∀ value mu alpha beta : ℝ, ¬(0 < alpha ∧ 0 < beta) →
      GeneralizedNormal.logp value mu alpha beta
        = Except.error "alpha > 0, beta > 0")
    ∧ (∀ value mu alpha beta : ℝ,
      (GeneralizedNormal.logcdf value mu alpha beta).isOk = true) := by
  refine ⟨?_, ?_, ?_, ?_⟩
  · intro value mu sigma xi h
    rw [GenExtreme.logp, check_parameters, if_neg h]
  · intro value mu sigma xi h
    rw [GenExtreme.logcdf, check_parameters, if_neg h]
  · intro value mu alpha beta h
    rw [GeneralizedNormal.logp, check_parameters, if_neg h]
  · intro value mu alpha beta
    rfl

/-- Witness for the amended C1: concrete flagged evaluations of the three
checked functions at σ = -1 resp. α = -1, and a concrete unflagged
`GeneralizedNormal.logcdf` evaluation at α = -1. -/
theorem parameter_check_coverage_witness :
    GenExtreme.logcdf 0 0 (-1) 0 = Except.error "sigma > 0 or -1 < xi < 1"
    ∧ GeneralizedNormal.logp 0 0 (-1) 1 = Except.error "alpha > 0, beta > 0"
    ∧ (GeneralizedNormal.logcdf 0 0 (-1) 1).isOk = true :=
  ⟨parameter_check_coverage.2.1 0 0 (-1) 0 (by norm_num),
   parameter_check_coverage.2.2.1 0 0 (-1) 1 (by norm_num),
   parameter_check_coverage.2.2.2 0 0 (-1) 1⟩
